import Mathlib

/-!
Verification of the logo compliance checker of `campaign_automation`
(`src/campaign_automation/compliance_check.py`).

The two functions under study are `check_logo_in_image` and
`check_campaign_compliance`.  OpenCV primitives (`cv2.imread`,
`cv2.cvtColor`, `ORB.detectAndCompute`, `BFMatcher.knnMatch`, the
homography fitting block) and the YAML loader are external libraries: they
are modelled as oracle functions collected in an environment record, and
the Python control flow around them is translated statement by statement.
A Python exception escaping a library call is modelled by the oracle
returning `Except.error`; Python floats are modelled as exact rationals,
and `round(x, 3)` as rounding `x * 1000` to the nearest integer.
A function that may raise to its caller returns `Except String _`;
`Except.error` at the top level of `check_campaign_compliance` models an
uncaught exception.  `verbose` printing has no effect on any returned
value and is omitted.
-/

namespace CampaignAutomation

/-- A grayscale image as a decoded pixel grid (`cv2` matrix). -/
abbrev Image := List (List Nat)

/-- A detected keypoint; only its 2D location `pt` is ever read
(lines 159-160 of the source). -/
structure Keypoint where
  x : ℚ
  y : ℚ
deriving DecidableEq

/-- A binary ORB descriptor (row of the descriptor matrix). -/
abbrev Descriptor := List Nat

/-- `cv2.DMatch`: indices into the query/train descriptor sets plus a
distance. -/
structure DMatch where
  queryIdx : Nat
  trainIdx : Nat
  distance : ℚ
deriving DecidableEq

/-- A bounding box `(x, y, width, height)` of `int`s (lines 179-184). -/
abbrev Location := ℤ × ℤ × ℤ × ℤ

/-- The dictionary returned by `check_logo_in_image`. -/
structure ComplianceResult where
  found : Bool
  match_count : Nat
  confidence : ℚ
  location : Option Location
  error : Option String
deriving DecidableEq

/-- Oracle environment abstracting the filesystem and the OpenCV calls
made by `check_logo_in_image`.  `Except.error` models the library call
raising an exception (caught by the function's outer `try`).
`imread` returning `Except.ok none` models `cv2.imread` returning `None`
for an unreadable file.  `detectAndCompute` returns the keypoint list and
the descriptor matrix, the latter `none` when OpenCV returns `None` (no
features).  `knnMatch2` is `bf.knnMatch(des1, des2, k=2)`.
`findLocation` bundles lines 158-184 (keypoint extraction,
`cv2.findHomography`, corner projection, bounding box): `Except.error`
models that block throwing, `Except.ok none` models `M is None`. -/
structure CVEnv where
  pathExists : String → Bool
  imread : String → Except String (Option Image)
  cvtColor : Image → Except String Image
  detectAndCompute : Image → Except String (List Keypoint × Option (List Descriptor))
  knnMatch2 : List Descriptor → List Descriptor → Except String (List (List DMatch))
  findLocation : List Keypoint → List Keypoint → List DMatch → Image →
    Except Unit (Option Location)

/-- The error-shaped result dictionary used at each early-return site of
`check_logo_in_image` (lines 67-73, 75-82, 88-95, 97-104, 120-126,
198-204): `found=False, match_count=0, confidence=0.0, location=None`. -/
def errResult (msg : String) : ComplianceResult :=
  { found := false, match_count := 0, confidence := 0, location := none,
    error := some msg }

/-- Lowe's ratio test (lines 135-140): keep `m` from each length-2 pair
`[m, n]` with `m.distance < good_match_threshold * n.distance`. -/
def goodMatchesOf (good_match_threshold : ℚ) (knn_matches : List (List DMatch)) :
    List DMatch :=
  knn_matches.filterMap fun match_pair =>
    match match_pair with
    | [m, n] =>
        if m.distance < good_match_threshold * n.distance then some m else none
    | _ => none

/-- `round(x, 3)` on an exact rational: nearest multiple of `1/1000`. -/
def round3 (x : ℚ) : ℚ := (round (x * 1000) : ℤ) / 1000

/-- Lines 128-195 of the source: matching, ratio test, confidence,
verdict, optional location, and the success dictionary.  Reached once
both images loaded and both descriptor sets are present. -/
def decisionStep (env : CVEnv) (kp1 kp2 : List Keypoint) (logo_gray : Image)
    (min_match_count : ℤ) (good_match_threshold : ℚ)
    (knn_matches : List (List DMatch)) : ComplianceResult :=
  let good_matches := goodMatchesOf good_match_threshold knn_matches
  let match_count := good_matches.length
  let confidence : ℚ :=
    if 0 < kp1.length then min ((match_count : ℚ) / (kp1.length : ℚ)) 1 else 0
  let logo_found : Bool := decide (min_match_count ≤ (match_count : ℤ))
  let location : Option Location :=
    if logo_found = true ∧ 4 ≤ good_matches.length then
      match env.findLocation kp1 kp2 good_matches logo_gray with
      | .ok loc => loc
      | .error _ => none
    else none
  { found := logo_found, match_count := match_count,
    confidence := round3 confidence, location := location, error := none }

/-- The body of `check_logo_in_image`'s `try` block (lines 62-195),
translated branch by branch; `Except.error` is an exception escaping to
the outer handler. -/
def checkLogoBody (env : CVEnv) (campaign_image_path logo_path : String)
    (min_match_count : ℤ) (good_match_threshold : ℚ) :
    Except String ComplianceResult :=
  if env.pathExists campaign_image_path = false then
    .ok (errResult ("Campaign image not found: " ++ campaign_image_path))
  else if env.pathExists logo_path = false then
    .ok (errResult ("Logo image not found: " ++ logo_path))
  else
    match env.imread campaign_image_path, env.imread logo_path with
    | .error e, _ => .error e
    | .ok _, .error e => .error e
    | .ok none, .ok _ =>
        .ok (errResult ("Could not read campaign image: " ++ campaign_image_path))
    | .ok (some _), .ok none =>
        .ok (errResult ("Could not read logo image: " ++ logo_path))
    | .ok (some campaign_img), .ok (some logo_img) =>
        match env.cvtColor campaign_img, env.cvtColor logo_img with
        | .error e, _ => .error e
        | .ok _, .error e => .error e
        | .ok campaign_gray, .ok logo_gray =>
            match env.detectAndCompute logo_gray,
                env.detectAndCompute campaign_gray with
            | .error e, _ => .error e
            | .ok _, .error e => .error e
            | .ok (kp1, des1), .ok (kp2, des2) =>
                match des1, des2 with
                | some d1, some d2 =>
                    match env.knnMatch2 d1 d2 with
                    | .error e => .error e
                    | .ok knn_matches =>
                        .ok (decisionStep env kp1 kp2 logo_gray
                          min_match_count good_match_threshold knn_matches)
                | _, _ =>
                    .ok (errResult "Not enough features detected in images")

/-- `check_logo_in_image` (lines 33-204): run the body, converting any
escaping exception into the catch-all error dictionary of lines 197-204. -/
def check_logo_in_image (env : CVEnv) (campaign_image_path logo_path : String)
    (min_match_count : ℤ := 10) (good_match_threshold : ℚ := 0.75) :
    ComplianceResult :=
  match checkLogoBody env campaign_image_path logo_path min_match_count
      good_match_threshold with
  | .ok r => r
  | .error e => errResult ("Logo detection error: " ++ e)

/-! ### Campaign compliance runner (`check_campaign_compliance`) -/

/-- `products[].assets` (only the `logo` key is read, line 279). -/
structure ProductAssets where
  logo : Option String := none
deriving DecidableEq

/-- A `products[]` entry (keys read: `id`, `assets`, lines 278-279). -/
structure Product where
  id : Option String := none
  assets : Option ProductAssets := none
deriving DecidableEq

/-- A `campaign.markets[]` entry (key read: `market_id`, line 290). -/
structure MarketEntry where
  market_id : Option String := none
deriving DecidableEq

/-- The `campaign` mapping (keys read: `id`, `markets`, lines 258-259). -/
structure CampaignMeta where
  id : Option String := none
  markets : Option (List MarketEntry) := none
deriving DecidableEq

/-- The `creative` mapping (key read: `aspect_ratios`, line 260). -/
structure CreativeMeta where
  aspect_ratios : Option (List String) := none
deriving DecidableEq

/-- The parsed campaign YAML document, restricted to the fields the
compliance runner reads; a missing key is `none` (`dict.get`). -/
structure CampaignData where
  campaign : Option CampaignMeta := none
  products : Option (List Product) := none
  creative : Option CreativeMeta := none
deriving DecidableEq

/-- One entry of the `results` list (lines 314-321): the check context
plus the splatted `ComplianceResult` fields. -/
structure ResultEntry where
  product_id : Option String
  aspect_ratio : String
  market_id : Option String
  image_path : String
  logo_path : String
  result : ComplianceResult
deriving DecidableEq

/-- The summary dictionary of `check_campaign_compliance`; `error` is the
extra key present only in the campaign-file-not-found return
(lines 243-250). -/
structure Summary where
  total_checked : Nat
  passed : Nat
  failed : Nat
  errors : Nat
  results : List ResultEntry
  error : Option String := none
deriving DecidableEq

/-- Environment of the runner: the CV oracle plus the YAML loader.
`loadYaml` models `open` + `yaml.safe_load` + the top-level `.get`
accesses of lines 252-260; `Except.error` is an exception (unreadable
file, unparsable YAML, non-mapping document) escaping to the caller. -/
structure RunEnv where
  cv : CVEnv
  loadYaml : String → Except String CampaignData

/-- Python truthiness of an optional string (`if result['error']:`,
`if not logo_filename:`): `None` and the empty string are falsy. -/
def truthyStr : Option String → Bool
  | none => false
  | some s => !s.isEmpty

/-- Python `f"{x}"` on an optional string: `None` renders as "None". -/
def pyStr : Option String → String
  | none => "None"
  | some s => s

/-- Lines 237-240: a bare filename (relative, single path component) is
resolved under `input/campaigns`. -/
def resolveCampaignPath (campaign_file : String) : String :=
  if campaign_file.startsWith "/" then campaign_file
  else if (campaign_file.splitOn "/").length == 1 then
    "input/campaigns/" ++ campaign_file
  else campaign_file

/-- The candidate image path of lines 293-294:
`output/{campaign_id}/{product_id}/{aspect_ratio}/{market_id}/campaign_{product_id}_{market_id}_{aspect_ratio}.png`. -/
def imagePathFor (campaign_id product_id : Option String)
    (aspect_ratio : String) (market_id : Option String) : String :=
  "output/" ++ pyStr campaign_id ++ "/" ++ pyStr product_id ++ "/" ++
    aspect_ratio ++ "/" ++ pyStr market_id ++ "/" ++
    "campaign_" ++ pyStr product_id ++ "_" ++ pyStr market_id ++ "_" ++
    aspect_ratio ++ ".png"

/-- The innermost loop body (lines 290-340): one (product, ratio, market)
combination.  A missing candidate image is skipped (state unchanged);
otherwise the image is checked, `total_checked` is incremented, one
result entry is appended, and exactly one of `errors`/`passed`/`failed`
is incremented according to the result. -/
def marketStep (env : RunEnv) (min_match_count : ℤ)
    (campaign_id product_id : Option String) (logo_path : String)
    (aspect_ratio : String) (st : Summary) (market : MarketEntry) : Summary :=
  let market_id := market.market_id
  let image_path := imagePathFor campaign_id product_id aspect_ratio market_id
  if env.cv.pathExists image_path = false then st
  else
    let result := check_logo_in_image env.cv image_path logo_path min_match_count
    let entry : ResultEntry :=
      { product_id := product_id, aspect_ratio := aspect_ratio,
        market_id := market_id, image_path := image_path,
        logo_path := logo_path, result := result }
    let st1 := { st with total_checked := st.total_checked + 1,
                         results := st.results ++ [entry] }
    if truthyStr result.error then { st1 with errors := st1.errors + 1 }
    else if result.found then { st1 with passed := st1.passed + 1 }
    else { st1 with failed := st1.failed + 1 }

/-- The per-product loop body (lines 277-299): a product with a falsy
`assets.logo` is skipped entirely; otherwise the aspect-ratio × market
grid is traversed in order. -/
def productStep (env : RunEnv) (min_match_count : ℤ)
    (campaign_id : Option String) (aspect_ratios : List String)
    (markets : List MarketEntry) (st : Summary) (product : Product) : Summary :=
  let product_id := product.id
  let logo_filename := (product.assets.getD {}).logo
  if truthyStr logo_filename = false then st
  else
    let logo_path := "input/assets/" ++ pyStr logo_filename
    aspect_ratios.foldl
      (fun st2 aspect_ratio =>
        markets.foldl
          (marketStep env min_match_count campaign_id product_id logo_path
            aspect_ratio) st2)
      st

/-- `check_campaign_compliance` (lines 207-364).  A missing campaign file
returns the early summary of lines 243-250; a YAML-load exception
propagates to the caller (`Except.error`); otherwise the product ×
aspect-ratio × market grid is folded over from zeroed counters. -/
def check_campaign_compliance (env : RunEnv)
    (campaign_file : String := "holiday_campaign.yaml")
    (min_match_count : ℤ := 10) : Except String Summary :=
  let campaign_path := resolveCampaignPath campaign_file
  if env.cv.pathExists campaign_path = false then
    .ok { total_checked := 0, passed := 0, failed := 0, errors := 1,
          results := [],
          error := some ("Campaign file not found: " ++ campaign_path) }
  else
    match env.loadYaml campaign_path with
    | .error e => .error e
    | .ok data =>
        let campaign := data.campaign.getD {}
        let products := data.products.getD []
        let campaign_id := campaign.id
        let markets := campaign.markets.getD []
        let aspect_ratios := (data.creative.getD {}).aspect_ratios.getD []
        .ok (products.foldl
          (productStep env min_match_count campaign_id aspect_ratios markets)
          { total_checked := 0, passed := 0, failed := 0, errors := 0,
            results := [], error := none })

/-! ### Concrete environments used to exercise the definitions -/

/-- A concrete environment whose filesystem is empty. -/
def envMissing : CVEnv where
  pathExists := fun _ => false
  imread := fun _ => .ok none
  cvtColor := fun i => .ok i
  detectAndCompute := fun _ => .ok ([], none)
  knnMatch2 := fun _ _ => .ok []
  findLocation := fun _ _ _ _ => .ok none

/-- A concrete environment: both images readable, 3 keypoints with
descriptors each, a single knn pair passing the ratio test
(1 < 0.75 * 2). -/
def envThird : CVEnv where
  pathExists := fun _ => true
  imread := fun _ => .ok (some [[0]])
  cvtColor := fun i => .ok i
  detectAndCompute := fun _ =>
    .ok ([⟨0, 0⟩, ⟨0, 1⟩, ⟨0, 2⟩], some [[0], [1], [2]])
  knnMatch2 := fun _ _ => .ok [[⟨0, 0, 1⟩, ⟨0, 1, 2⟩]]
  findLocation := fun _ _ _ _ => .ok none

/-- The knn output used by `envFound` and `envLocated`: twelve pairs,
each passing the ratio test (1 < 0.75 * 2). -/
def knnTwelve : List (List DMatch) :=
  [[⟨0, 0, 1⟩, ⟨0, 1, 2⟩], [⟨1, 0, 1⟩, ⟨1, 1, 2⟩], [⟨2, 0, 1⟩, ⟨2, 1, 2⟩],
   [⟨3, 0, 1⟩, ⟨3, 1, 2⟩], [⟨4, 0, 1⟩, ⟨4, 1, 2⟩], [⟨5, 0, 1⟩, ⟨5, 1, 2⟩],
   [⟨6, 0, 1⟩, ⟨6, 1, 2⟩], [⟨7, 0, 1⟩, ⟨7, 1, 2⟩], [⟨8, 0, 1⟩, ⟨8, 1, 2⟩],
   [⟨9, 0, 1⟩, ⟨9, 1, 2⟩], [⟨10, 0, 1⟩, ⟨10, 1, 2⟩], [⟨11, 0, 1⟩, ⟨11, 1, 2⟩]]

/-- The keypoint list shared by the twelve-match environments. -/
def kpTwelve : List Keypoint :=
  [⟨0, 0⟩, ⟨0, 1⟩, ⟨0, 2⟩, ⟨0, 3⟩, ⟨0, 4⟩, ⟨0, 5⟩,
   ⟨0, 6⟩, ⟨0, 7⟩, ⟨0, 8⟩, ⟨0, 9⟩, ⟨0, 10⟩, ⟨0, 11⟩]

/-- The descriptor list shared by the twelve-match environments. -/
def desTwelve : List Descriptor :=
  [[0], [1], [2], [3], [4], [5], [6], [7], [8], [9], [10], [11]]

/-- A concrete environment with 12 keypoints and 12 good knn pairs, whose
homography-fitting block throws. -/
def envFound : CVEnv where
  pathExists := fun _ => true
  imread := fun _ => .ok (some [[0]])
  cvtColor := fun i => .ok i
  detectAndCompute := fun _ => .ok (kpTwelve, some desTwelve)
  knnMatch2 := fun _ _ => .ok knnTwelve
  findLocation := fun _ _ _ _ => .error ()

/-- Like `envFound`, but the homography fit succeeds with a bounding
box. -/
def envLocated : CVEnv where
  pathExists := fun _ => true
  imread := fun _ => .ok (some [[0]])
  cvtColor := fun i => .ok i
  detectAndCompute := fun _ => .ok (kpTwelve, some desTwelve)
  knnMatch2 := fun _ _ => .ok knnTwelve
  findLocation := fun _ _ _ _ => .ok (some (0, 0, 1, 1))

/-- A concrete environment in which feature detection yields no
descriptors for either image. -/
def envNoFeatures : CVEnv where
  pathExists := fun _ => true
  imread := fun _ => .ok (some [[0]])
  cvtColor := fun i => .ok i
  detectAndCompute := fun _ => .ok ([], none)
  knnMatch2 := fun _ _ => .ok []
  findLocation := fun _ _ _ _ => .ok none

/-! ### Claim theorems -/

/-- Every `.ok` value of the try-block body with a non-null error is one
of the early-return dictionaries, all of which zero out the other
fields. -/
theorem checkLogoBody_ok_shape (env : CVEnv) (cp lp : String) (mmc : ℤ)
    (thr : ℚ) (r : ComplianceResult)
    (h : checkLogoBody env cp lp mmc thr = .ok r) (he : r.error ≠ none) :
    r.found = false ∧ r.match_count = 0 ∧ r.confidence = 0 := by
  unfold checkLogoBody at h
  repeat' split at h
  all_goals cases h
  all_goals simp_all [errResult, decisionStep]

/-- C1: whenever the result dictionary of `check_logo_in_image` has a
non-null `error` field, it also has `found = false`, `match_count = 0`
and `confidence = 0.0`. -/
theorem C1_error_implies_negative_result (env : CVEnv) (cp lp : String)
    (mmc : ℤ) (thr : ℚ) (r : ComplianceResult)
    (hr : check_logo_in_image env cp lp mmc thr = r) (he : r.error ≠ none) :
    r.found = false ∧ r.match_count = 0 ∧ r.confidence = 0 := by
  subst hr
  rcases hb : checkLogoBody env cp lp mmc thr with e | r2
  · unfold check_logo_in_image
    rw [hb]
    exact ⟨rfl, rfl, rfl⟩
  · unfold check_logo_in_image at he ⊢
    rw [hb] at he ⊢
    exact checkLogoBody_ok_shape env cp lp mmc thr r2 hb he

/-- C1 witness: a run against an empty filesystem has a non-null error
and the zeroed fields. -/
theorem C1_witness :
    (check_logo_in_image envMissing "c.png" "l.png").error ≠ none ∧
    ((check_logo_in_image envMissing "c.png" "l.png").found = false ∧
      (check_logo_in_image envMissing "c.png" "l.png").match_count = 0 ∧
      (check_logo_in_image envMissing "c.png" "l.png").confidence = 0) :=
  ⟨by decide,
    C1_error_implies_negative_result envMissing "c.png" "l.png" 10 0.75
      (check_logo_in_image envMissing "c.png" "l.png") rfl (by decide)⟩

/-- On the fully successful path (both files present, both images read
and converted, both descriptor sets present, matching succeeded) the
function returns exactly the decision-step dictionary. -/
theorem check_success_eq (env : CVEnv) (cp lp : String) (mmc : ℤ) (thr : ℚ)
    (ci li cg lg : Image) (kp1 kp2 : List Keypoint) (d1 d2 : List Descriptor)
    (ms : List (List DMatch))
    (hce : env.pathExists cp = true) (hle : env.pathExists lp = true)
    (hcr : env.imread cp = .ok (some ci)) (hlr : env.imread lp = .ok (some li))
    (hcg : env.cvtColor ci = .ok cg) (hlg : env.cvtColor li = .ok lg)
    (hdl : env.detectAndCompute lg = .ok (kp1, some d1))
    (hdc : env.detectAndCompute cg = .ok (kp2, some d2))
    (hknn : env.knnMatch2 d1 d2 = .ok ms) :
    check_logo_in_image env cp lp mmc thr =
      decisionStep env kp1 kp2 lg mmc thr ms := by
  unfold check_logo_in_image checkLogoBody
  simp only [hce, hle, hcr, hlr, hcg, hlg, hdl, hdc, hknn]
  simp

/-- OpenCV invariant of `ORB.detectAndCompute`: when the returned
descriptor matrix is not `None` it has one row per returned keypoint, so
the keypoint list is non-empty (`None` is returned exactly when nothing
was detected). -/
def CVEnv.DetectWF (env : CVEnv) : Prop :=
  ∀ img kp des, env.detectAndCompute img = .ok (kp, some des) → kp ≠ []

theorem round3_nonneg {q : ℚ} (h : 0 ≤ q) : 0 ≤ round3 q := by
  unfold round3
  have h1 : (0 : ℤ) ≤ round (q * 1000) := by
    rw [round_eq]
    refine Int.floor_nonneg.mpr ?_
    nlinarith
  have h2 : (0 : ℚ) ≤ ((round (q * 1000) : ℤ) : ℚ) := by exact_mod_cast h1
  exact div_nonneg h2 (by norm_num)

theorem round3_le_one {q : ℚ} (h : q ≤ 1) : round3 q ≤ 1 := by
  unfold round3
  have h1 : round (q * 1000) ≤ 1000 := by
    rw [round_eq]
    have hx : q * 1000 + 1 / 2 < ((1001 : ℤ) : ℚ) := by push_cast; nlinarith
    have := Int.floor_lt.mpr hx
    omega
  rw [div_le_one (by norm_num)]
  exact_mod_cast h1

theorem round3_close (q : ℚ) : |round3 q - q| ≤ 1 / 2000 := by
  have h : |((round (q * 1000) : ℤ) : ℚ) - q * 1000| ≤ 1 / 2 := by
    rw [abs_sub_comm]
    exact abs_sub_round (q * 1000)
  have heq : round3 q - q = (((round (q * 1000) : ℤ) : ℚ) - q * 1000) / 1000 := by
    unfold round3
    ring
  rw [heq, abs_div, abs_of_pos (show (0 : ℚ) < 1000 by norm_num)]
  linarith [h]

/-- The confidence field of the decision step, for a non-empty logo
keypoint list: the capped good-match ratio, rounded to three decimals. -/
theorem decisionStep_confidence (env : CVEnv) (kp1 kp2 : List Keypoint)
    (lg : Image) (mmc : ℤ) (thr : ℚ) (ms : List (List DMatch))
    (hpos : 0 < kp1.length) :
    (decisionStep env kp1 kp2 lg mmc thr ms).confidence =
      round3 (min (((decisionStep env kp1 kp2 lg mmc thr ms).match_count : ℚ) /
        (kp1.length : ℚ)) 1) := by
  simp only [decisionStep, if_pos hpos]

/-- Concrete run of `envThird`: one good match out of three logo
keypoints; `1/3` rounds to `0.333`. -/
theorem envThird_eval : check_logo_in_image envThird "c.png" "l.png" 10 0.75 =
    { found := false, match_count := 1, confidence := 333 / 1000,
      location := none, error := none } := by
  rw [check_success_eq envThird "c.png" "l.png" 10 0.75 [[0]] [[0]] [[0]] [[0]]
    [⟨0, 0⟩, ⟨0, 1⟩, ⟨0, 2⟩] [⟨0, 0⟩, ⟨0, 1⟩, ⟨0, 2⟩] [[0], [1], [2]]
    [[0], [1], [2]] [[⟨0, 0, 1⟩, ⟨0, 1, 2⟩]] rfl rfl rfl rfl rfl rfl rfl rfl rfl]
  norm_num [decisionStep, goodMatchesOf, round3, round_eq, envThird,
    List.filterMap_cons, List.filterMap_nil]

/-- Concrete run of `envFound`: twelve good matches, full confidence,
homography block throws so no location. -/
theorem envFound_eval : check_logo_in_image envFound "c.png" "l.png" 10 0.75 =
    { found := true, match_count := 12, confidence := 1,
      location := none, error := none } := by
  rw [check_success_eq envFound "c.png" "l.png" 10 0.75 [[0]] [[0]] [[0]] [[0]]
    kpTwelve kpTwelve desTwelve desTwelve knnTwelve
    rfl rfl rfl rfl rfl rfl rfl rfl rfl]
  norm_num [decisionStep, goodMatchesOf, round3, round_eq, kpTwelve, knnTwelve,
    envFound, List.filterMap_cons, List.filterMap_nil]

/-- Concrete run of `envLocated`: as `envFound` but the homography fit
returns a bounding box. -/
theorem envLocated_eval :
    check_logo_in_image envLocated "c.png" "l.png" 10 0.75 =
    { found := true, match_count := 12, confidence := 1,
      location := some (0, 0, 1, 1), error := none } := by
  rw [check_success_eq envLocated "c.png" "l.png" 10 0.75 [[0]] [[0]] [[0]] [[0]]
    kpTwelve kpTwelve desTwelve desTwelve knnTwelve
    rfl rfl rfl rfl rfl rfl rfl rfl rfl]
  norm_num [decisionStep, goodMatchesOf, round3, round_eq, kpTwelve, knnTwelve,
    envLocated, List.filterMap_cons, List.filterMap_nil]

/-- C3: on a successful (`error = None`) result, `found` holds exactly
when `match_count` reaches `min_match_count`, and the function's default
arguments are `min_match_count = 10`, `good_match_threshold = 0.75`. -/
theorem C3_found_iff_min_match (env : CVEnv) (cp lp : String) (mmc : ℤ)
    (thr : ℚ) (r : ComplianceResult)
    (hr : check_logo_in_image env cp lp mmc thr = r) (he : r.error = none) :
    (r.found = true ↔ mmc ≤ (r.match_count : ℤ)) ∧
      check_logo_in_image env cp lp = check_logo_in_image env cp lp 10 0.75 := by
  refine ⟨?_, rfl⟩
  subst hr
  rcases hb : checkLogoBody env cp lp mmc thr with e | r2
  · unfold check_logo_in_image at he
    rw [hb] at he
    simp [errResult] at he
  · unfold check_logo_in_image at he ⊢
    rw [hb] at he ⊢
    unfold checkLogoBody at hb
    repeat' split at hb
    all_goals cases hb
    all_goals simp_all [errResult, decisionStep]

/-- C3 witness: in the twelve-match environment the successful result is
found with 12 ≥ 10 matches. -/
theorem C3_witness :
    (check_logo_in_image envFound "c.png" "l.png" 10 0.75).error = none ∧
    ((check_logo_in_image envFound "c.png" "l.png" 10 0.75).found = true ↔
      (10 : ℤ) ≤ ((check_logo_in_image envFound "c.png" "l.png" 10 0.75).match_count : ℤ)) := by
  refine ⟨by rw [envFound_eval], ?_⟩
  exact (C3_found_iff_min_match envFound "c.png" "l.png" 10 0.75 _ rfl
    (by rw [envFound_eval])).1

/-- C2 counterexample: in `envThird` (3 logo keypoints, 1 good match) the
successful result's returned confidence is `0.333`, not the exact ratio
`min(1 / max(1, 3), 1) = 1/3` that the claim states. -/
theorem C2_counterexample :
    (check_logo_in_image envThird "c.png" "l.png" 10 0.75).error = none ∧
    (check_logo_in_image envThird "c.png" "l.png" 10 0.75).match_count = 1 ∧
    (check_logo_in_image envThird "c.png" "l.png" 10 0.75).confidence ≠
      min ((1 : ℚ) / ((max 1 3 : ℕ) : ℚ)) 1 := by
  rw [envThird_eval]
  norm_num [min_def]

/-- C2 corrected: on the fully successful path and under the OpenCV
invariant `DetectWF`, the returned confidence equals
`min(match_count / max(1, logo_keypoint_count), 1.0)` rounded to three
decimal places, and it always lies in `[0, 1]`. -/
theorem C2_amended_confidence (env : CVEnv) (cp lp : String) (mmc : ℤ)
    (thr : ℚ) (ci li cg lg : Image) (kp1 kp2 : List Keypoint)
    (d1 d2 : List Descriptor) (ms : List (List DMatch))
    (hwf : env.DetectWF)
    (hce : env.pathExists cp = true) (hle : env.pathExists lp = true)
    (hcr : env.imread cp = .ok (some ci)) (hlr : env.imread lp = .ok (some li))
    (hcg : env.cvtColor ci = .ok cg) (hlg : env.cvtColor li = .ok lg)
    (hdl : env.detectAndCompute lg = .ok (kp1, some d1))
    (hdc : env.detectAndCompute cg = .ok (kp2, some d2))
    (hknn : env.knnMatch2 d1 d2 = .ok ms) :
    (check_logo_in_image env cp lp mmc thr).error = none ∧
    (check_logo_in_image env cp lp mmc thr).confidence =
      round3 (min (((check_logo_in_image env cp lp mmc thr).match_count : ℚ) /
        ((max 1 kp1.length : ℕ) : ℚ)) 1) ∧
    0 ≤ (check_logo_in_image env cp lp mmc thr).confidence ∧
    (check_logo_in_image env cp lp mmc thr).confidence ≤ 1 := by
  have hkp : kp1 ≠ [] := hwf lg kp1 d1 hdl
  have hpos : 0 < kp1.length := List.length_pos.mpr hkp
  have hmax : (max 1 kp1.length : ℕ) = kp1.length := max_eq_right hpos
  rw [check_success_eq env cp lp mmc thr ci li cg lg kp1 kp2 d1 d2 ms
    hce hle hcr hlr hcg hlg hdl hdc hknn, hmax]
  refine ⟨rfl, decisionStep_confidence env kp1 kp2 lg mmc thr ms hpos, ?_, ?_⟩
  · simp only [decisionStep, if_pos hpos]
    exact round3_nonneg (le_min (by positivity) zero_le_one)
  · simp only [decisionStep, if_pos hpos]
    exact round3_le_one (min_le_right _ _)

/-- C2 witness: the corrected statement instantiated at `envThird`. -/
theorem C2_witness :
    (check_logo_in_image envThird "c.png" "l.png" 10 0.75).error = none ∧
    (check_logo_in_image envThird "c.png" "l.png" 10 0.75).confidence =
      round3 (min
        (((check_logo_in_image envThird "c.png" "l.png" 10 0.75).match_count : ℚ) /
          ((max 1 ([⟨0, 0⟩, ⟨0, 1⟩, ⟨0, 2⟩] : List Keypoint).length : ℕ) : ℚ)) 1) ∧
    0 ≤ (check_logo_in_image envThird "c.png" "l.png" 10 0.75).confidence ∧
    (check_logo_in_image envThird "c.png" "l.png" 10 0.75).confidence ≤ 1 :=
  C2_amended_confidence envThird "c.png" "l.png" 10 0.75 [[0]] [[0]] [[0]] [[0]]
    [⟨0, 0⟩, ⟨0, 1⟩, ⟨0, 2⟩] [⟨0, 0⟩, ⟨0, 1⟩, ⟨0, 2⟩] [[0], [1], [2]]
    [[0], [1], [2]] [[⟨0, 0, 1⟩, ⟨0, 1, 2⟩]]
    (by
      intro img kp des h
      simp only [envThird] at h
      cases h
      simp)
    rfl rfl rfl rfl rfl rfl rfl rfl rfl

/-- C10: on the fully successful path the returned confidence is the
exact capped ratio rounded to three decimals, hence within `0.0005` of
that ratio. -/
theorem C10_confidence_within_half_thousandth (env : CVEnv) (cp lp : String)
    (mmc : ℤ) (thr : ℚ) (ci li cg lg : Image) (kp1 kp2 : List Keypoint)
    (d1 d2 : List Descriptor) (ms : List (List DMatch))
    (hwf : env.DetectWF)
    (hce : env.pathExists cp = true) (hle : env.pathExists lp = true)
    (hcr : env.imread cp = .ok (some ci)) (hlr : env.imread lp = .ok (some li))
    (hcg : env.cvtColor ci = .ok cg) (hlg : env.cvtColor li = .ok lg)
    (hdl : env.detectAndCompute lg = .ok (kp1, some d1))
    (hdc : env.detectAndCompute cg = .ok (kp2, some d2))
    (hknn : env.knnMatch2 d1 d2 = .ok ms) :
    (check_logo_in_image env cp lp mmc thr).confidence =
      round3 (min (((check_logo_in_image env cp lp mmc thr).match_count : ℚ) /
        (kp1.length : ℚ)) 1) ∧
    |(check_logo_in_image env cp lp mmc thr).confidence -
      min (((check_logo_in_image env cp lp mmc thr).match_count : ℚ) /
        (kp1.length : ℚ)) 1| ≤ 1 / 2000 := by
  have hkp : kp1 ≠ [] := hwf lg kp1 d1 hdl
  have hpos : 0 < kp1.length := List.length_pos.mpr hkp
  rw [check_success_eq env cp lp mmc thr ci li cg lg kp1 kp2 d1 d2 ms
    hce hle hcr hlr hcg hlg hdl hdc hknn]
  refine ⟨decisionStep_confidence env kp1 kp2 lg mmc thr ms hpos, ?_⟩
  simp only [decisionStep, if_pos hpos]
  exact round3_close _

/-- C10 witness: at `envThird` the reported `0.333` is within `0.0005`
of `1/3`. -/
theorem C10_witness :
    (check_logo_in_image envThird "c.png" "l.png" 10 0.75).confidence =
      round3 (min
        (((check_logo_in_image envThird "c.png" "l.png" 10 0.75).match_count : ℚ) /
          (([⟨0, 0⟩, ⟨0, 1⟩, ⟨0, 2⟩] : List Keypoint).length : ℚ)) 1) ∧
    |(check_logo_in_image envThird "c.png" "l.png" 10 0.75).confidence -
      min (((check_logo_in_image envThird "c.png" "l.png" 10 0.75).match_count : ℚ) /
        (([⟨0, 0⟩, ⟨0, 1⟩, ⟨0, 2⟩] : List Keypoint).length : ℚ)) 1| ≤ 1 / 2000 :=
  C10_confidence_within_half_thousandth envThird "c.png" "l.png" 10 0.75
    [[0]] [[0]] [[0]] [[0]]
    [⟨0, 0⟩, ⟨0, 1⟩, ⟨0, 2⟩] [⟨0, 0⟩, ⟨0, 1⟩, ⟨0, 2⟩] [[0], [1], [2]]
    [[0], [1], [2]] [[⟨0, 0, 1⟩, ⟨0, 1, 2⟩]]
    (by
      intro img kp des h
      simp only [envThird] at h
      cases h
      simp)
    rfl rfl rfl rfl rfl rfl rfl rfl rfl

/-- The number of accepted matches equals the count of length-2 knn
pairs passing the distance-ratio test. -/
theorem goodMatchesOf_length_eq_countP (thr : ℚ) (ms : List (List DMatch)) :
    (goodMatchesOf thr ms).length = ms.countP (fun p =>
      match p with
      | [m, n] => decide (m.distance < thr * n.distance)
      | _ => false) := by
  induction ms with
  | nil => rfl
  | cons p t ih =>
      rcases p with _ | ⟨m, _ | ⟨n, _ | ⟨o, rest⟩⟩⟩
      · simpa [goodMatchesOf, List.filterMap_cons, List.countP_cons] using ih
      · simpa [goodMatchesOf, List.filterMap_cons, List.countP_cons] using ih
      · by_cases hc : m.distance < thr * n.distance <;>
          simp [goodMatchesOf, List.filterMap_cons, List.countP_cons, hc] <;>
          simpa [goodMatchesOf] using ih
      · simpa [goodMatchesOf, List.filterMap_cons, List.countP_cons] using ih

/-- C6: a knn pair `[m, n]` is accepted exactly when
`distance(best) < threshold * distance(second_best)`; on the successful
path `match_count` is the number of accepted pairs; the default
threshold is 0.75. -/
theorem C6_ratio_test (env : CVEnv) (cp lp : String) (mmc : ℤ) (thr : ℚ)
    (ci li cg lg : Image) (kp1 kp2 : List Keypoint) (d1 d2 : List Descriptor)
    (ms : List (List DMatch))
    (hce : env.pathExists cp = true) (hle : env.pathExists lp = true)
    (hcr : env.imread cp = .ok (some ci)) (hlr : env.imread lp = .ok (some li))
    (hcg : env.cvtColor ci = .ok cg) (hlg : env.cvtColor li = .ok lg)
    (hdl : env.detectAndCompute lg = .ok (kp1, some d1))
    (hdc : env.detectAndCompute cg = .ok (kp2, some d2))
    (hknn : env.knnMatch2 d1 d2 = .ok ms) :
    (check_logo_in_image env cp lp mmc thr).match_count =
      ms.countP (fun p =>
        match p with
        | [m, n] => decide (m.distance < thr * n.distance)
        | _ => false) ∧
    (∀ (pre : List (List DMatch)) (m n : DMatch),
      goodMatchesOf thr (pre ++ [[m, n]]) =
        goodMatchesOf thr pre ++
          (if m.distance < thr * n.distance then [m] else [])) ∧
    check_logo_in_image env cp lp mmc = check_logo_in_image env cp lp mmc 0.75 := by
  refine ⟨?_, ?_, rfl⟩
  · rw [check_success_eq env cp lp mmc thr ci li cg lg kp1 kp2 d1 d2 ms
      hce hle hcr hlr hcg hlg hdl hdc hknn]
    simp only [decisionStep]
    exact goodMatchesOf_length_eq_countP thr ms
  · intro pre m n
    by_cases hc : m.distance < thr * n.distance <;>
      simp [goodMatchesOf, List.filterMap_append, List.filterMap_cons, hc]

/-- C6 witness: the ratio-test characterisation at `envThird`. -/
theorem C6_witness :
    (check_logo_in_image envThird "c.png" "l.png" 10 0.75).match_count =
      ([[⟨0, 0, 1⟩, ⟨0, 1, 2⟩]] : List (List DMatch)).countP (fun p =>
        match p with
        | [m, n] => decide (m.distance < (0.75 : ℚ) * n.distance)
        | _ => false) ∧
    goodMatchesOf 0.75 ([] ++ [[⟨0, 0, 1⟩, ⟨0, 1, 2⟩]]) =
      goodMatchesOf 0.75 [] ++
        (if (⟨0, 0, 1⟩ : DMatch).distance <
            0.75 * (⟨0, 1, 2⟩ : DMatch).distance then [⟨0, 0, 1⟩] else []) :=
  ⟨(C6_ratio_test envThird "c.png" "l.png" 10 0.75 [[0]] [[0]] [[0]] [[0]]
      [⟨0, 0⟩, ⟨0, 1⟩, ⟨0, 2⟩] [⟨0, 0⟩, ⟨0, 1⟩, ⟨0, 2⟩] [[0], [1], [2]]
      [[0], [1], [2]] [[⟨0, 0, 1⟩, ⟨0, 1, 2⟩]]
      rfl rfl rfl rfl rfl rfl rfl rfl rfl).1,
    (C6_ratio_test envThird "c.png" "l.png" 10 0.75 [[0]] [[0]] [[0]] [[0]]
      [⟨0, 0⟩, ⟨0, 1⟩, ⟨0, 2⟩] [⟨0, 0⟩, ⟨0, 1⟩, ⟨0, 2⟩] [[0], [1], [2]]
      [[0], [1], [2]] [[⟨0, 0, 1⟩, ⟨0, 1, 2⟩]]
      rfl rfl rfl rfl rfl rfl rfl rfl rfl).2.1 [] ⟨0, 0, 1⟩ ⟨0, 1, 2⟩⟩

/-- A non-null location in the decision step forces the verdict true and
at least 4 good matches (the if-condition of line 156). -/
theorem decisionStep_location_ne (env : CVEnv) (kp1 kp2 : List Keypoint)
    (lg : Image) (mmc : ℤ) (thr : ℚ) (ms : List (List DMatch))
    (h : (decisionStep env kp1 kp2 lg mmc thr ms).location ≠ none) :
    (decisionStep env kp1 kp2 lg mmc thr ms).found = true ∧
    4 ≤ (decisionStep env kp1 kp2 lg mmc thr ms).match_count := by
  simp only [decisionStep] at h ⊢
  by_cases hc : decide (mmc ≤ ((goodMatchesOf thr ms).length : ℤ)) = true ∧
      4 ≤ (goodMatchesOf thr ms).length
  · exact ⟨hc.1, hc.2⟩
  · rw [if_neg hc] at h
    exact absurd rfl h

/-- C7: `location` is non-null only when the logo was found with at
least 4 good matches; and when the homography block throws or yields no
matrix on an otherwise successful run, the result still has
`error = None`, `location = None`, and the verdict determined solely by
`match_count`. -/
theorem C7_location_policy :
    (∀ (env : CVEnv) (cp lp : String) (mmc : ℤ) (thr : ℚ)
        (r : ComplianceResult),
      check_logo_in_image env cp lp mmc thr = r → r.location ≠ none →
        r.found = true ∧ 4 ≤ r.match_count) ∧
    (∀ (env : CVEnv) (cp lp : String) (mmc : ℤ) (thr : ℚ) (ci li cg lg : Image)
        (kp1 kp2 : List Keypoint) (d1 d2 : List Descriptor)
        (ms : List (List DMatch)),
      env.pathExists cp = true → env.pathExists lp = true →
      env.imread cp = .ok (some ci) → env.imread lp = .ok (some li) →
      env.cvtColor ci = .ok cg → env.cvtColor li = .ok lg →
      env.detectAndCompute lg = .ok (kp1, some d1) →
      env.detectAndCompute cg = .ok (kp2, some d2) →
      env.knnMatch2 d1 d2 = .ok ms →
      (env.findLocation kp1 kp2 (goodMatchesOf thr ms) lg = .error () ∨
        env.findLocation kp1 kp2 (goodMatchesOf thr ms) lg = .ok none) →
      (check_logo_in_image env cp lp mmc thr).error = none ∧
      (check_logo_in_image env cp lp mmc thr).location = none ∧
      (check_logo_in_image env cp lp mmc thr).found =
        decide (mmc ≤ ((check_logo_in_image env cp lp mmc thr).match_count : ℤ))) := by
  constructor
  · intro env cp lp mmc thr r hr hloc
    subst hr
    rcases hb : checkLogoBody env cp lp mmc thr with e | r2
    · unfold check_logo_in_image at hloc
      rw [hb] at hloc
      simp [errResult] at hloc
    · unfold check_logo_in_image at hloc ⊢
      rw [hb] at hloc ⊢
      unfold checkLogoBody at hb
      repeat' split at hb
      all_goals cases hb
      all_goals first
        | exact decisionStep_location_ne _ _ _ _ _ _ _ hloc
        | simp_all [errResult]
  · intro env cp lp mmc thr ci li cg lg kp1 kp2 d1 d2 ms hce hle hcr hlr hcg
      hlg hdl hdc hknn hloc
    rw [check_success_eq env cp lp mmc thr ci li cg lg kp1 kp2 d1 d2 ms
      hce hle hcr hlr hcg hlg hdl hdc hknn]
    rcases hloc with h | h <;> simp [decisionStep, h]

/-- C7 witness: part one at `envLocated` (a bounding box implies found
with ≥ 4 matches) and part two at `envFound` (throwing homography keeps
`error = None`, `location = None`). -/
theorem C7_witness :
    ((check_logo_in_image envLocated "c.png" "l.png" 10 0.75).found = true ∧
      4 ≤ (check_logo_in_image envLocated "c.png" "l.png" 10 0.75).match_count) ∧
    ((check_logo_in_image envFound "c.png" "l.png" 10 0.75).error = none ∧
      (check_logo_in_image envFound "c.png" "l.png" 10 0.75).location = none ∧
      (check_logo_in_image envFound "c.png" "l.png" 10 0.75).found =
        decide ((10 : ℤ) ≤
          ((check_logo_in_image envFound "c.png" "l.png" 10 0.75).match_count : ℤ))) :=
  ⟨C7_location_policy.1 envLocated "c.png" "l.png" 10 0.75 _ rfl
      (by rw [envLocated_eval]; simp),
    C7_location_policy.2 envFound "c.png" "l.png" 10 0.75 [[0]] [[0]] [[0]] [[0]]
      kpTwelve kpTwelve desTwelve desTwelve knnTwelve
      rfl rfl rfl rfl rfl rfl rfl rfl rfl (Or.inl rfl)⟩

/-! ### Runner environments and claims -/

/-- Runner over an empty filesystem. -/
def renvMissing : RunEnv where
  cv := envMissing
  loadYaml := fun _ => .ok {}

/-- Runner whose campaign file exists but cannot be parsed: the YAML
loader raises. -/
def renvBadYaml : RunEnv where
  cv := envNoFeatures
  loadYaml := fun _ => .error "could not parse campaign YAML"

/-- Runner whose checks all fail with the no-features error. -/
def renvNoFeat : RunEnv where
  cv := envNoFeatures
  loadYaml := fun _ => .ok {}

/-- An all-zero summary. -/
def sumZero : Summary :=
  { total_checked := 0, passed := 0, failed := 0, errors := 0,
    results := [], error := none }

/-- C8 counterexample: the error string produced for missing descriptors
is "Not enough features detected in images" (line 125), not the spec's
"Not enough features detected". -/
theorem C8_counterexample :
    (check_logo_in_image envNoFeatures "c.png" "l.png" 10 0.75).error =
      some "Not enough features detected in images" ∧
    (check_logo_in_image envNoFeatures "c.png" "l.png" 10 0.75).error ≠
      some "Not enough features detected" := by
  constructor <;> decide

/-- C8 corrected: when either image yields no descriptors (descriptor
matrix `None`) on an otherwise readable input pair, the result is the
error dictionary with exactly "Not enough features detected in images",
and the runner counts such a result under `errors` (and nowhere else)
while still incrementing `total_checked`. -/
theorem C8_amended_features_error (env : CVEnv) (cp lp : String) (mmc : ℤ)
    (thr : ℚ) (ci li cg lg : Image) (kp1 kp2 : List Keypoint)
    (des1 des2 : Option (List Descriptor))
    (hce : env.pathExists cp = true) (hle : env.pathExists lp = true)
    (hcr : env.imread cp = .ok (some ci)) (hlr : env.imread lp = .ok (some li))
    (hcg : env.cvtColor ci = .ok cg) (hlg : env.cvtColor li = .ok lg)
    (hdl : env.detectAndCompute lg = .ok (kp1, des1))
    (hdc : env.detectAndCompute cg = .ok (kp2, des2))
    (hnone : des1 = none ∨ des2 = none) :
    check_logo_in_image env cp lp mmc thr =
      errResult "Not enough features detected in images" ∧
    (∀ (renv : RunEnv) (mmc2 : ℤ) (cid pid : Option String)
        (lpath ar : String) (st : Summary) (mkt : MarketEntry),
      renv.cv.pathExists (imagePathFor cid pid ar mkt.market_id) = true →
      check_logo_in_image renv.cv (imagePathFor cid pid ar mkt.market_id)
        lpath mmc2 = errResult "Not enough features detected in images" →
      (marketStep renv mmc2 cid pid lpath ar st mkt).errors = st.errors + 1 ∧
      (marketStep renv mmc2 cid pid lpath ar st mkt).passed = st.passed ∧
      (marketStep renv mmc2 cid pid lpath ar st mkt).failed = st.failed ∧
      (marketStep renv mmc2 cid pid lpath ar st mkt).total_checked =
        st.total_checked + 1) := by
  constructor
  · unfold check_logo_in_image checkLogoBody
    simp only [hce, hle, hcr, hlr, hcg, hlg, hdl, hdc]
    rcases hnone with h | h
    · subst h
      simp
    · subst h
      rcases des1 with _ | d1 <;> simp
  · intro renv mmc2 cid pid lpath ar st mkt hpe hres
    simp only [marketStep, hpe, hres]
    have hne : ("Not enough features detected in images".isEmpty) = false := rfl
    norm_num [truthyStr, errResult, hne]

/-- C8 witness: the corrected statement exercised end to end at
`envNoFeatures` / `renvNoFeat`. -/
theorem C8_witness :
    check_logo_in_image envNoFeatures
        (imagePathFor (some "camp") (some "p1") "1x1" (some "us"))
        "input/assets/logo.png" 10 0.75 =
      errResult "Not enough features detected in images" ∧
    ((marketStep renvNoFeat 10 (some "camp") (some "p1")
        "input/assets/logo.png" "1x1" sumZero ⟨some "us"⟩).errors =
        sumZero.errors + 1 ∧
      (marketStep renvNoFeat 10 (some "camp") (some "p1")
        "input/assets/logo.png" "1x1" sumZero ⟨some "us"⟩).passed =
        sumZero.passed ∧
      (marketStep renvNoFeat 10 (some "camp") (some "p1")
        "input/assets/logo.png" "1x1" sumZero ⟨some "us"⟩).failed =
        sumZero.failed ∧
      (marketStep renvNoFeat 10 (some "camp") (some "p1")
        "input/assets/logo.png" "1x1" sumZero ⟨some "us"⟩).total_checked =
        sumZero.total_checked + 1) := by
  have thm := C8_amended_features_error envNoFeatures
    (imagePathFor (some "camp") (some "p1") "1x1" (some "us"))
    "input/assets/logo.png" 10 0.75 [[0]] [[0]] [[0]] [[0]] [] [] none none
    rfl rfl rfl rfl rfl rfl rfl rfl (Or.inl rfl)
  exact ⟨thm.1, thm.2 renvNoFeat 10 (some "camp") (some "p1")
    "input/assets/logo.png" "1x1" sumZero ⟨some "us"⟩ rfl thm.1⟩

/-- C4 counterexample: an existing but unparsable campaign file makes
`check_campaign_compliance` raise (the loader's exception propagates to
the caller), instead of returning the errors=1 summary the claim
states. -/
theorem C4_counterexample :
    check_campaign_compliance renvBadYaml "bad.yaml" 10 =
      Except.error "could not parse campaign YAML" := by
  rfl

/-- C4 corrected: only a MISSING campaign file produces the immediate
summary with `total_checked = 0`, `errors = 1`, empty results and no
exception; an existing but unparsable file propagates the parse
exception to the caller. -/
theorem C4_amended_load_failure (env : RunEnv) (cf : String) (mmc : ℤ) :
    (env.cv.pathExists (resolveCampaignPath cf) = false →
      check_campaign_compliance env cf mmc =
        .ok { total_checked := 0, passed := 0, failed := 0, errors := 1,
              results := [],
              error := some ("Campaign file not found: " ++
                resolveCampaignPath cf) }) ∧
    (∀ e, env.cv.pathExists (resolveCampaignPath cf) = true →
      env.loadYaml (resolveCampaignPath cf) = .error e →
      check_campaign_compliance env cf mmc = .error e) := by
  constructor
  · intro h
    unfold check_campaign_compliance
    simp [h]
  · intro e h1 h2
    unfold check_campaign_compliance
    simp [h1, h2]

/-- C4 witness: the missing-file summary at `renvMissing` and the
propagated exception at `renvBadYaml`. -/
theorem C4_witness :
    check_campaign_compliance renvMissing "camp.yaml" 10 =
      .ok { total_checked := 0, passed := 0, failed := 0, errors := 1,
            results := [],
            error := some ("Campaign file not found: " ++
              resolveCampaignPath "camp.yaml") } ∧
    check_campaign_compliance renvBadYaml "bad.yaml" 10 =
      .error "could not parse campaign YAML" :=
  ⟨(C4_amended_load_failure renvMissing "camp.yaml" 10).1 rfl,
    (C4_amended_load_failure renvBadYaml "bad.yaml" 10).2
      "could not parse campaign YAML" rfl rfl⟩

/-- C5: a combination whose candidate image is absent on disk leaves the
runner state untouched, and a product with a falsy `assets.logo` leaves
the runner state untouched: nothing is counted and no result entry is
appended. -/
theorem C5_skips_contribute_nothing :
    (∀ (env : RunEnv) (mmc : ℤ) (cid pid : Option String)
        (lpath ar : String) (st : Summary) (mkt : MarketEntry),
      env.cv.pathExists (imagePathFor cid pid ar mkt.market_id) = false →
      marketStep env mmc cid pid lpath ar st mkt = st) ∧
    (∀ (env : RunEnv) (mmc : ℤ) (cid : Option String) (ars : List String)
        (mkts : List MarketEntry) (st : Summary) (p : Product),
      truthyStr ((p.assets.getD {}).logo) = false →
      productStep env mmc cid ars mkts st p = st) := by
  constructor
  · intro env mmc cid pid lpath ar st mkt h
    unfold marketStep
    simp [h]
  · intro env mmc cid ars mkts st p h
    unfold productStep
    simp [h]

/-- C5 witness: a missing image and a logo-less product both leave the
zero summary unchanged. -/
theorem C5_witness :
    marketStep renvMissing 10 (some "c") (some "p") "lp" "1x1" sumZero
      ⟨some "us"⟩ = sumZero ∧
    productStep renvMissing 10 (some "c") ["1x1"] [⟨some "us"⟩] sumZero
      { id := some "p", assets := none } = sumZero :=
  ⟨C5_skips_contribute_nothing.1 renvMissing 10 (some "c") (some "p") "lp"
      "1x1" sumZero ⟨some "us"⟩ rfl,
    C5_skips_contribute_nothing.2 renvMissing 10 (some "c") ["1x1"]
      [⟨some "us"⟩] sumZero { id := some "p", assets := none } rfl⟩

/-- The bookkeeping invariant of the runner's summary. -/
def SummaryInv (s : Summary) : Prop :=
  s.total_checked = s.passed + s.failed + s.errors ∧
  s.results.length = s.total_checked

theorem marketStep_preserves_inv (env : RunEnv) (mmc : ℤ)
    (cid pid : Option String) (lpath ar : String) (st : Summary)
    (mkt : MarketEntry) (h : SummaryInv st) :
    SummaryInv (marketStep env mmc cid pid lpath ar st mkt) := by
  obtain ⟨h1, h2⟩ := h
  unfold marketStep
  dsimp only
  split
  · exact ⟨h1, h2⟩
  · repeat' split
    all_goals refine ⟨?_, ?_⟩
    all_goals try simp [h1, h2]
    all_goals omega

theorem foldl_preserves {α : Type} (P : Summary → Prop)
    (f : Summary → α → Summary) (hf : ∀ st a, P st → P (f st a)) :
    ∀ (l : List α) (st : Summary), P st → P (l.foldl f st) := by
  intro l
  induction l with
  | nil => intro st h; exact h
  | cons a t ih => intro st h; exact ih (f st a) (hf st a h)

theorem productStep_preserves_inv (env : RunEnv) (mmc : ℤ)
    (cid : Option String) (ars : List String) (mkts : List MarketEntry)
    (st : Summary) (p : Product) (h : SummaryInv st) :
    SummaryInv (productStep env mmc cid ars mkts st p) := by
  unfold productStep
  dsimp only
  split
  · exact h
  · exact foldl_preserves SummaryInv _
      (fun st2 ar2 h2 => foldl_preserves SummaryInv _
        (fun st3 mk h3 =>
          marketStep_preserves_inv env mmc cid p.id _ ar2 st3 mk h3)
        mkts st2 h2)
      ars st h

/-- C9: a summary produced after a successful campaign load satisfies
`total_checked = passed + failed + errors` and
`len(results) = total_checked`. -/
theorem C9_summary_invariant (env : RunEnv) (cf : String) (mmc : ℤ)
    (s : Summary) (h : check_campaign_compliance env cf mmc = .ok s)
    (he : s.error = none) :
    s.total_checked = s.passed + s.failed + s.errors ∧
    s.results.length = s.total_checked := by
  unfold check_campaign_compliance at h
  dsimp only at h
  split at h
  · cases h
    simp at he
  · split at h
    · cases h
    · cases h
      exact foldl_preserves SummaryInv _
        (fun st p hp => productStep_preserves_inv _ _ _ _ _ st p hp)
        _ _ ⟨rfl, rfl⟩

/-- A one-product, one-ratio, one-market campaign document. -/
def dataDemo : CampaignData :=
  { campaign := some { id := some "camp", markets := some [⟨some "us"⟩] },
    products := some [{ id := some "p1",
                        assets := some { logo := some "logo.png" } }],
    creative := some { aspect_ratios := some ["1x1"] } }

/-- Runner loading `dataDemo` over the no-features filesystem. -/
def renvDemo : RunEnv where
  cv := envNoFeatures
  loadYaml := fun _ => .ok dataDemo

/-- The summary `renvDemo` produces: one checked image, one error. -/
def sDemo : Summary :=
  { total_checked := 1, passed := 0, failed := 0, errors := 1,
    results := [{ product_id := some "p1", aspect_ratio := "1x1",
                  market_id := some "us",
                  image_path := "output/camp/p1/1x1/us/campaign_p1_us_1x1.png",
                  logo_path := "input/assets/logo.png",
                  result :=
                    errResult "Not enough features detected in images" }],
    error := none }

/-- C9 witness: the invariant holds for the concrete demo run. -/
theorem C9_witness :
    check_campaign_compliance renvDemo "camp.yaml" 10 = .ok sDemo ∧
    (sDemo.total_checked = sDemo.passed + sDemo.failed + sDemo.errors ∧
      sDemo.results.length = sDemo.total_checked) := by
  have h : check_campaign_compliance renvDemo "camp.yaml" 10 = .ok sDemo := by
    rfl
  exact ⟨h, C9_summary_invariant renvDemo "camp.yaml" 10 sDemo h rfl⟩

end CampaignAutomation
